import Mathlib

/-!
OBD-II serial driver (`obd2_app/obd2.c`, `obd2_app/include/obd2.h`).

A shallow embedding of the driver.  Text is a list of byte values (`Nat`,
each below 256); a C string is the list of its bytes before the terminating
NUL.  Unsigned 32-bit arithmetic is `Nat` arithmetic reduced modulo `2^32`.
The operating system is an oracle: every function that calls into it takes
the results of those calls as arguments and appends the calls it made to the
session's log.  `printf`, `perror` and `usleep` have no effect on the state
that is modelled and are left out.
-/

namespace Obd2

/-! ## C library pieces used by the driver -/

/-- Modulus of `uint32_t`. -/
def U32 : Nat := 4294967296

/-- Bytes of an ASCII literal. -/
def ascii (s : String) : List Nat := s.toList.map Char.toNat

/-- C locale `isspace`: space, and `\t \n \v \f \r`. -/
def isspace (c : Nat) : Bool := c == 32 || (9 ≤ c && c ≤ 13)

/-- Value of a hexadecimal digit character; `none` when `isxdigit` is false. -/
def xdigit_val (c : Nat) : Option Nat :=
  if 48 ≤ c ∧ c ≤ 57 then some (c - 48)
  else if 65 ≤ c ∧ c ≤ 70 then some (c - 55)
  else if 97 ≤ c ∧ c ≤ 102 then some (c - 87)
  else none

/-- C `isxdigit`. -/
def isxdigit (c : Nat) : Bool := (xdigit_val c).isSome

/-- Leading white space skipped by a numeric conversion. -/
def skip_space : List Nat → List Nat
  | [] => []
  | c :: cs => if isspace c then skip_space cs else c :: cs

/-- Digit loop of a hexadecimal conversion: while field width remains and the
next character is a hex digit, consume it.  Returns the accumulated value, the
number of digits consumed and the unread input. -/
def scan_xdigits : Nat → List Nat → Nat → Nat → Nat × Nat × List Nat
  | 0, s, acc, n => (acc, n, s)
  | _ + 1, [], acc, n => (acc, n, [])
  | w + 1, c :: cs, acc, n =>
    match xdigit_val c with
    | some d => scan_xdigits w cs (acc * 16 + d) (n + 1)
    | none => (acc, n, c :: cs)

/-- Result of one conversion specification. -/
inductive ScanField where
  | input_failure
  | matching_failure
  | converted (value : Nat) (rest : List Nat)
  deriving DecidableEq

/-- Optional sign of a numeric field: whether it was `-`, the field width
left, and the unread input. -/
def scan_sign (width : Nat) : List Nat → Bool × Nat × List Nat
  | [] => (false, width, [])
  | c :: cs =>
    if c == 43 || c == 45 then (c == 45, width - 1, cs) else (false, width, c :: cs)

/-- Optional base indication of a hexadecimal field: a `0`, read when width
remains, and an `x` or `X` after it, read when width still remains.  Returns
whether a `0` was read, the field width left, and the unread input. -/
def scan_radix (width : Nat) : List Nat → Bool × Nat × List Nat
  | [] => (false, width, [])
  | c :: cs =>
    if width != 0 && c == 48 then
      match cs with
      | [] => (true, width - 1, [])
      | x :: cs2 =>
        if width - 1 != 0 && (x == 120 || x == 88) then (true, width - 1 - 1, cs2)
        else (true, width - 1, x :: cs2)
    else (false, width, c :: cs)

/-- One `%<width>X` conversion of `sscanf` into an `unsigned int`, for a
positive field width.  White space is skipped without counting against the
width; then an optional sign, an optional `0` with an optional `x`/`X` after
it, and hex digits are read, `width` characters at most.  End of input before
the first character is an input failure; a field with no digit in it is a
matching failure.  A field that is `0x` with no digit after it converts to 0,
as the GNU C library does.  A `-` negates modulo `2^32`. -/
def scan_X (width : Nat) (input : List Nat) : ScanField :=
  match skip_space input with
  | [] => .input_failure
  | c :: cs =>
    match scan_sign width (c :: cs) with
    | (negative, w1, s1) =>
      match scan_radix w1 s1 with
      | (zero, w2, s2) =>
        match scan_xdigits w2 s2 0 0 with
        | (acc, n, rest) =>
          if !zero && n == 0 then .matching_failure
          else .converted (if negative then (U32 - acc % U32) % U32 else acc % U32) rest

/-- What `sscanf(s, "%02X%02X", &data_a, &data_b)` did: its return value and
the variables it assigned. -/
inductive ScanOutcome where
  | eof
  | assigned0
  | assigned1 (data_a : Nat)
  | assigned2 (data_a data_b : Nat)
  deriving DecidableEq

/-- Return value of the `sscanf` call: `EOF` is -1. -/
def ScanOutcome.ret : ScanOutcome → Int
  | .eof => -1
  | .assigned0 => 0
  | .assigned1 _ => 1
  | .assigned2 _ _ => 2

/-- The call `sscanf(s, "%02X%02X", &data_a, &data_b)`: `02` is a field width
of 2. -/
def sscanf_02X_02X (s : List Nat) : ScanOutcome :=
  match scan_X 2 s with
  | .input_failure => .eof
  | .matching_failure => .assigned0
  | .converted data_a rest =>
    match scan_X 2 rest with
    | .converted data_b _ => .assigned2 data_a data_b
    | _ => .assigned1 data_a

/-! ## `obd2.h` -/

def OBD2_PID_ENGINE_LOAD : Nat := 0x04
def OBD2_PID_COOLANT_TEMP : Nat := 0x05
def OBD2_PID_ENGINE_RPM : Nat := 0x0C
def OBD2_PID_VEHICLE_SPEED : Nat := 0x0D
def OBD2_PID_FUEL_LEVEL : Nat := 0x2F

/-- The struct `obd2_response_t`: `pid` is a `uint8_t`, `value` a `uint32_t`,
`unit` a `char[16]` holding a C string. -/
structure obd2_response_t where
  pid : Nat
  value : Nat
  valid : Bool
  unit : String
  deriving DecidableEq

/-! ## `parse_obd2_response` -/

/-- The function `parse_obd2_response`.  `response_str` is the C string passed
in, `response` the contents of `*response` on entry; the result is the return
value and the contents of `*response` on return. -/
def parse_obd2_response (response_str : List Nat) (pid : Nat)
    (response : obd2_response_t) : Int × obd2_response_t :=
  let r0 : obd2_response_t := { response with pid := pid, valid := false }
  if response_str.length < 5 then (-1, r0)
  else
    match sscanf_02X_02X (response_str.drop 3) with
    | .assigned2 data_a data_b =>
      let r1 : obd2_response_t :=
        { r0 with value := ((data_a <<< 8) % U32) ||| data_b, valid := true }
      if pid = OBD2_PID_ENGINE_RPM then
        (0, { r1 with value := r1.value / 4, unit := "RPM" })
      else if pid = OBD2_PID_VEHICLE_SPEED then
        (0, { r1 with unit := "km/h" })
      else if pid = OBD2_PID_COOLANT_TEMP then
        (0, { r1 with value := (r1.value + U32 - 40) % U32, unit := "°C" })
      else if pid = OBD2_PID_ENGINE_LOAD then
        (0, { r1 with value := (r1.value * 100) % U32 / 255, unit := "%" })
      else if pid = OBD2_PID_FUEL_LEVEL then
        (0, { r1 with value := (r1.value * 100) % U32 / 255, unit := "%" })
      else
        (0, { r1 with unit := "raw" })
    | _ => (-1, r0)


/-- The byte spelled by the two hex digits at offsets `i` and `i + 1` of a
text, when both characters are hex digits. -/
def hex_byte_at (text : List Nat) (i : Nat) : Option Nat :=
  match text.drop i with
  | hi :: lo :: _ =>
    match xdigit_val hi, xdigit_val lo with
    | some a, some b => some (16 * a + b)
    | _, _ => none
  | _ => none

/-- Number of hex digit characters in a text. -/
def hex_count (text : List Nat) : Nat := (text.filter isxdigit).length

/-! ## The session and the operating system -/

/-- A `struct termios` value, carried as one number: no modelled operation
reads its fields. -/
abbrev termios := Nat

/-- Settings handed to `tcsetattr`: the saved ones, or the raw 8N1 settings
`configure_serial` derives from the current ones for a speed. -/
inductive LineSettings where
  | saved (tty : termios)
  | raw_8N1 (tty : termios) (baud : Nat)
  deriving DecidableEq

/-- A call into the operating system.  `sys_open` carries the value `open`
returned. -/
inductive Event where
  | sys_open (port : List Nat) (ret : Int)
  | sys_tcgetattr (fd : Int)
  | sys_tcsetattr (fd : Int) (settings : LineSettings)
  | sys_close (fd : Int)
  | sys_write (fd : Int) (data : List Nat)
  | sys_select (fd : Int) (timeout_ms : Nat)
  | sys_read (fd : Int) (max_len : Nat)
  deriving DecidableEq

/-- The driver's static variables, and the calls made so far, oldest first. -/
structure Session where
  serial_fd : Int
  old_tty : termios
  log : List Event
  deriving DecidableEq

/-- State at program start: `serial_fd = -1`, `old_tty` zeroed. -/
def Session.initial : Session := { serial_fd := -1, old_tty := 0, log := [] }

/-- Effect of one call on the descriptors opened and not yet closed: a
successful `open` adds the descriptor it returned, `close` releases its
argument. -/
def track (handles : List Int) : Event → List Int
  | .sys_open _ ret => if 0 ≤ ret then handles ++ [ret] else handles
  | .sys_close fd => handles.erase fd
  | _ => handles

/-- Descriptors opened and not yet closed after the calls of a log. -/
def open_handles (log : List Event) : List Int := log.foldl track []

/-- Results of the calls `obd2_init` makes: the descriptor `open` returns
(`none` when it fails and returns -1), the settings `tcgetattr` reads (`none`
when it fails), and whether `tcsetattr` succeeds. -/
structure InitOs where
  open_ret : Option Nat
  tcgetattr_ret : Option termios
  tcsetattr_ok : Bool
  deriving DecidableEq

/-- Results of the calls of one command round trip: the return value of
`write`, the return value of `select`, and the bytes `read` delivers (`none`
when it fails). -/
structure IoOs where
  write_ret : Int
  select_ret : Int
  read_ret : Option (List Nat)
  deriving DecidableEq

/-! ## `obd2.c`: transport -/

/-- The `switch (baudrate)` of `configure_serial`. -/
def select_baud (baudrate : Nat) : Nat :=
  if baudrate = 9600 then 9600
  else if baudrate = 19200 then 19200
  else if baudrate = 38400 then 38400
  else if baudrate = 57600 then 57600
  else if baudrate = 115200 then 115200
  else 9600

/-- The function `configure_serial`. -/
def configure_serial (s : Session) (fd : Int) (baudrate : Nat)
    (tcgetattr_ret : Option termios) (tcsetattr_ok : Bool) : Int × Session :=
  let s1 : Session := { s with log := s.log ++ [.sys_tcgetattr fd] }
  match tcgetattr_ret with
  | none => (-1, s1)
  | some tty =>
    let s2 : Session :=
      { s1 with old_tty := tty
                log := s1.log ++ [.sys_tcsetattr fd (.raw_8N1 tty (select_baud baudrate))] }
    if !tcsetattr_ok then (-1, s2) else (0, s2)

/-- The function `read_with_timeout`: the return value, the bytes stored at
the start of `buffer`, and the session. -/
def read_with_timeout (s : Session) (max_len : Nat) (timeout_ms : Nat) (os : IoOs) :
    Int × List Nat × Session :=
  if s.serial_fd < 0 then (-1, [], s)
  else
    let s1 : Session := { s with log := s.log ++ [.sys_select s.serial_fd timeout_ms] }
    if os.select_ret ≤ 0 then (os.select_ret, [], s1)
    else
      let s2 : Session := { s1 with log := s1.log ++ [.sys_read s.serial_fd max_len] }
      match os.read_ret with
      | none => (-1, [], s2)
      | some data => (((data.take max_len).length : Int), data.take max_len, s2)

/-- The C string that starts at the beginning of a buffer. -/
def c_str (buffer : List Nat) : List Nat := buffer.takeWhile (fun b => b != 0)

/-- Whether `hay` begins with `needle`. -/
def starts_with : List Nat → List Nat → Bool
  | [], _ => true
  | _ :: _, [] => false
  | n :: ns, h :: hs => n == h && starts_with ns hs

/-- C `strstr`: offset of the first occurrence of `needle` in `hay`; `none`
is the null pointer. -/
def strstr (hay needle : List Nat) : Option Nat :=
  if starts_with needle hay then some 0
  else
    match hay with
    | [] => none
    | _ :: hs => (strstr hs needle).map (fun i => i + 1)

/-- Upper-case hex digits of a number, as `%X` prints them. -/
def fmt_X (n : Nat) : List Nat := (Nat.toDigits 16 n).map (fun c => c.toUpper.toNat)

/-- Conversion `%02X` of `snprintf`: at least two digits, padded with `0`. -/
def fmt_02X (n : Nat) : List Nat :=
  List.replicate (2 - (fmt_X n).length) 48 ++ fmt_X n

/-! ## `obd2.c`: public API -/

/-- The function `obd2_close`. -/
def obd2_close (s : Session) : Int × Session :=
  if 0 ≤ s.serial_fd then
    (0, { s with serial_fd := -1
                 log := s.log ++
                   [.sys_tcsetattr s.serial_fd (.saved s.old_tty), .sys_close s.serial_fd] })
  else (0, s)

/-- The value `open` returns. -/
def InitOs.open_value (os : InitOs) : Int :=
  match os.open_ret with
  | some n => (n : Int)
  | none => -1

/-- The function `obd2_init`. -/
def obd2_init (s : Session) (port : List Nat) (baudrate : Nat) (os : InitOs) :
    Int × Session :=
  let s1 : Session := if 0 ≤ s.serial_fd then (obd2_close s).2 else s
  let fd : Int := os.open_value
  let s2 : Session := { s1 with serial_fd := fd, log := s1.log ++ [.sys_open port fd] }
  if fd < 0 then (-1, s2)
  else
    match configure_serial s2 s2.serial_fd baudrate os.tcgetattr_ret os.tcsetattr_ok with
    | (rc, s3) =>
      if rc ≠ 0 then
        (-1, { s3 with serial_fd := -1, log := s3.log ++ [.sys_close s3.serial_fd] })
      else (0, s3)

/-- The function `obd2_test_connection`. -/
def obd2_test_connection (s : Session) (os : IoOs) : Bool × Session :=
  if s.serial_fd < 0 then (false, s)
  else
    let cmd := ascii "AT\r"
    let s1 : Session := { s with log := s.log ++ [.sys_write s.serial_fd cmd] }
    if os.write_ret < 0 then (false, s1)
    else
      match read_with_timeout s1 255 1000 os with
      | (n, buffer, s2) =>
        if 0 < n then
          if (strstr (c_str (buffer ++ [0])) (ascii "OK")).isSome then (true, s2)
          else (false, s2)
        else (false, s2)

/-- The command `obd2_request_pid` builds with `snprintf` into `cmd[32]`. -/
def request_command (pid : Nat) : List Nat :=
  (ascii "0100" ++ fmt_02X pid ++ ascii "\r").take 31

/-- The function `obd2_request_pid`.  `response` is `none` for a null
pointer, else the contents of `*response` on entry; the result carries its
contents on return. -/
def obd2_request_pid (s : Session) (pid : Nat) (response : Option obd2_response_t)
    (os : IoOs) : Int × Session × Option obd2_response_t :=
  if s.serial_fd < 0 then (-1, s, response)
  else
    match response with
    | none => (-1, s, none)
    | some r =>
      let cmd := request_command pid
      let s1 : Session := { s with log := s.log ++ [.sys_write s.serial_fd (c_str cmd)] }
      if os.write_ret < 0 then (-1, s1, some r)
      else
        match read_with_timeout s1 255 2000 os with
        | (n, buffer, s2) =>
          if n ≤ 0 then (-1, s2, some { r with valid := false })
          else
            match parse_obd2_response (c_str (buffer ++ [0])) pid r with
            | (rc, r1) => if rc ≠ 0 then (-1, s2, some r1) else (0, s2, some r1)

/-- Conversion of a `uint32_t` to `int8_t`. -/
def to_int8 (v : Nat) : Int := if v % 256 < 128 then (v % 256 : Nat) else (v % 256 : Nat) - 256

/-- The function `obd2_get_rpm`.  `rpm` is `none` for a null pointer, else the
value `*rpm` holds; `local_response` is the uninitialised local `response`. -/
def obd2_get_rpm (s : Session) (rpm : Option Nat) (local_response : obd2_response_t)
    (os : IoOs) : Int × Session × Option Nat :=
  match rpm with
  | none => (-1, s, none)
  | some old =>
    match obd2_request_pid s OBD2_PID_ENGINE_RPM (some local_response) os with
    | (rc, s1, response) =>
      if rc ≠ 0 then (-1, s1, some old)
      else if !(response.getD local_response).valid then (-1, s1, some old)
      else (0, s1, some ((response.getD local_response).value % 65536))

/-- The function `obd2_get_speed`.  `speed` is `none` for a null pointer, else the
value `*speed` holds; `local_response` is the uninitialised local `response`. -/
def obd2_get_speed (s : Session) (speed : Option Nat) (local_response : obd2_response_t)
    (os : IoOs) : Int × Session × Option Nat :=
  match speed with
  | none => (-1, s, none)
  | some old =>
    match obd2_request_pid s OBD2_PID_VEHICLE_SPEED (some local_response) os with
    | (rc, s1, response) =>
      if rc ≠ 0 then (-1, s1, some old)
      else if !(response.getD local_response).valid then (-1, s1, some old)
      else (0, s1, some ((response.getD local_response).value % 256))

/-- The function `obd2_get_coolant_temp`.  `temp` is `none` for a null pointer, else the
value `*temp` holds; `local_response` is the uninitialised local `response`. -/
def obd2_get_coolant_temp (s : Session) (temp : Option Int) (local_response : obd2_response_t)
    (os : IoOs) : Int × Session × Option Int :=
  match temp with
  | none => (-1, s, none)
  | some old =>
    match obd2_request_pid s OBD2_PID_COOLANT_TEMP (some local_response) os with
    | (rc, s1, response) =>
      if rc ≠ 0 then (-1, s1, some old)
      else if !(response.getD local_response).valid then (-1, s1, some old)
      else (0, s1, some (to_int8 (response.getD local_response).value))

/-- The function `obd2_get_fuel_level`.  `level` is `none` for a null pointer, else the
value `*level` holds; `local_response` is the uninitialised local `response`. -/
def obd2_get_fuel_level (s : Session) (level : Option Nat) (local_response : obd2_response_t)
    (os : IoOs) : Int × Session × Option Nat :=
  match level with
  | none => (-1, s, none)
  | some old =>
    match obd2_request_pid s OBD2_PID_FUEL_LEVEL (some local_response) os with
    | (rc, s1, response) =>
      if rc ≠ 0 then (-1, s1, some old)
      else if !(response.getD local_response).valid then (-1, s1, some old)
      else (0, s1, some ((response.getD local_response).value % 256))

/-- The function `obd2_get_engine_load`.  `load` is `none` for a null pointer, else the
value `*load` holds; `local_response` is the uninitialised local `response`. -/
def obd2_get_engine_load (s : Session) (load : Option Nat) (local_response : obd2_response_t)
    (os : IoOs) : Int × Session × Option Nat :=
  match load with
  | none => (-1, s, none)
  | some old =>
    match obd2_request_pid s OBD2_PID_ENGINE_LOAD (some local_response) os with
    | (rc, s1, response) =>
      if rc ≠ 0 then (-1, s1, some old)
      else if !(response.getD local_response).valid then (-1, s1, some old)
      else (0, s1, some ((response.getD local_response).value % 256))

/-! ## Call sequences -/

/-- A lifecycle call together with the results the operating system gives it. -/
inductive Call where
  | init (port : List Nat) (baudrate : Nat) (os : InitOs)
  | close
  deriving DecidableEq

/-- State after one lifecycle call. -/
def step (s : Session) : Call → Session
  | .init port baudrate os => (obd2_init s port baudrate os).2
  | .close => (obd2_close s).2

/-- State after a sequence of lifecycle calls. -/
def run (s : Session) (calls : List Call) : Session := calls.foldl step s

/-- The descriptors open are exactly the one in `serial_fd`, none when it is
negative. -/
def single_handle (s : Session) : Prop :=
  open_handles s.log = if 0 ≤ s.serial_fd then [s.serial_fd] else []

instance (s : Session) : Decidable (single_handle s) := by
  unfold single_handle
  infer_instance

/-! ## Sample inputs -/

/-- A response struct with earlier contents. -/
def stale : obd2_response_t := { pid := 0xEE, value := 7, valid := true, unit := "?" }

/-- A session with descriptor 3 open. -/
def ready : Session :=
  { serial_fd := 3, old_tty := 11, log := [.sys_open (ascii "/dev/ttyUSB0") 3] }

/-! ## Facts about the C library model -/

theorem xdigit_val_some {c h : Nat} (hc : xdigit_val c = some h) :
    isspace c = false ∧ c ≠ 43 ∧ c ≠ 45 ∧ c ≠ 120 ∧ c ≠ 88 ∧ h < 16 ∧ (c = 48 → h = 0) := by
  unfold xdigit_val at hc
  split_ifs at hc with h1 h2 h3 <;> simp at hc <;> subst hc <;>
    simp [isspace] <;> omega

theorem isxdigit_false_of {c : Nat}
    (h : isspace c = true ∨ c = 43 ∨ c = 45 ∨ c = 120 ∨ c = 88) : isxdigit c = false := by
  cases hx : xdigit_val c with
  | none => simp [isxdigit, hx]
  | some v =>
    obtain ⟨a, b, c', d, e, -, -⟩ := xdigit_val_some hx
    rcases h with h | h | h | h | h <;> simp_all

theorem hex_count_cons (c : Nat) (cs : List Nat) :
    hex_count (c :: cs) = (if isxdigit c then 1 else 0) + hex_count cs := by
  unfold hex_count
  by_cases h : isxdigit c = true <;> simp [List.filter_cons, h, Nat.add_comm]

theorem hex_count_skip_space (s : List Nat) : hex_count (skip_space s) = hex_count s := by
  induction s with
  | nil => rfl
  | cons c cs ih =>
    by_cases h : isspace c = true
    · simp [skip_space, h, ih, hex_count_cons, isxdigit_false_of (Or.inl h)]
    · simp [skip_space, h]

theorem scan_xdigits_count (w : Nat) : ∀ (s : List Nat) (acc n : Nat),
    hex_count (scan_xdigits w s acc n).2.2 + (scan_xdigits w s acc n).2.1 = hex_count s + n := by
  induction w with
  | zero => intro s acc n; simp [scan_xdigits]
  | succ w ih =>
    intro s acc n
    cases s with
    | nil => simp [scan_xdigits]
    | cons c cs =>
      cases hx : xdigit_val c with
      | none => simp [scan_xdigits, hx]
      | some d =>
        have hd : isxdigit c = true := by simp [isxdigit, hx]
        simp only [scan_xdigits, hx, hex_count_cons, hd, if_true]
        rw [ih]; omega

theorem scan_sign_count (w : Nat) (s : List Nat) :
    hex_count (scan_sign w s).2.2 = hex_count s := by
  cases s with
  | nil => rfl
  | cons c cs =>
    by_cases h : (c == 43 || c == 45) = true
    · have hx : isxdigit c = false := by
        apply isxdigit_false_of
        simp at h
        omega
      simp [scan_sign, h, hex_count_cons, hx]
    · simp [scan_sign, h]

theorem scan_radix_count (w : Nat) (s : List Nat) :
    hex_count (scan_radix w s).2.2 + (if (scan_radix w s).1 then 1 else 0) = hex_count s := by
  cases s with
  | nil => rfl
  | cons c cs =>
    by_cases h : (w != 0 && c == 48) = true
    · have hc : c = 48 := by simp at h; exact h.2
      have hw : w ≠ 0 := by simp at h; exact h.1
      subst hc
      have h48 : isxdigit 48 = true := by decide
      cases cs with
      | nil => simp [scan_radix, hw, hex_count_cons, h48, Nat.add_comm]
      | cons x cs2 =>
        by_cases hx : (w - 1 != 0 && (x == 120 || x == 88)) = true
        · have hxd : isxdigit x = false := by
            apply isxdigit_false_of
            simp at hx
            omega
          simp [scan_radix, hw, hx, hex_count_cons, h48, hxd, Nat.add_comm]
        · simp [scan_radix, hw, hx, hex_count_cons, h48]
          omega
    · simp [scan_radix, h]

/-- A conversion that succeeds consumes at least one hex digit. -/
theorem scan_X_consumes_digit {w : Nat} {s rest : List Nat} {v : Nat}
    (h : scan_X w s = .converted v rest) : hex_count rest + 1 ≤ hex_count s := by
  unfold scan_X at h
  split at h
  · simp at h
  · rename_i c cs heq
    have hs : hex_count (c :: cs) = hex_count s := by rw [← heq, hex_count_skip_space]
    have h1 := scan_sign_count w (c :: cs)
    rcases hsg : scan_sign w (c :: cs) with ⟨neg, w1, s1⟩
    rw [hsg] at h h1
    simp only [] at h h1
    have h2 := scan_radix_count w1 s1
    rcases hrx : scan_radix w1 s1 with ⟨zero, w2, s2⟩
    rw [hrx] at h h2
    simp only [] at h h2
    have h3 := scan_xdigits_count w2 s2 0 0
    rcases hdg : scan_xdigits w2 s2 0 0 with ⟨acc, n, rest1⟩
    rw [hdg] at h h3
    simp only [] at h h3
    by_cases hz : (!zero && n == 0) = true
    · simp [hz] at h
    · simp only [hz, if_false, ScanField.converted.injEq] at h
      obtain ⟨-, rfl⟩ := h
      cases zero <;> simp at hz h2 <;> omega

theorem scan_X_two_digits {c1 c2 h1 h2 : Nat} (rest : List Nat)
    (e1 : xdigit_val c1 = some h1) (e2 : xdigit_val c2 = some h2) :
    scan_X 2 (c1 :: c2 :: rest) = .converted (16 * h1 + h2) rest := by
  obtain ⟨s1, p1, m1, -, -, b1, z1⟩ := xdigit_val_some e1
  obtain ⟨-, -, -, x2, X2, b2, -⟩ := xdigit_val_some e2
  have hU : (16 * h1 + h2) % U32 = 16 * h1 + h2 := by
    apply Nat.mod_eq_of_lt; unfold U32; omega
  by_cases hz : c1 = 48
  · subst hz
    have := z1 rfl
    subst this
    simp [scan_X, skip_space, isspace, scan_sign, scan_radix, scan_xdigits, e2, x2, X2]
    unfold U32; omega
  · simp [scan_X, skip_space, s1, p1, m1, hz, scan_sign, scan_radix, scan_xdigits, e1, e2]
    rw [← hU]; ring_nf

theorem hex_byte_at_some {text : List Nat} {i A : Nat} (h : hex_byte_at text i = some A) :
    ∃ hi lo t a b, text.drop i = hi :: lo :: t ∧ xdigit_val hi = some a ∧
      xdigit_val lo = some b ∧ A = 16 * a + b ∧ A < 256 := by
  unfold hex_byte_at at h
  split at h
  · rename_i hi lo t hd
    split at h
    · rename_i a b ha hb
      simp at h
      have := (xdigit_val_some ha).2.2.2.2.2.1
      have := (xdigit_val_some hb).2.2.2.2.2.1
      exact ⟨hi, lo, t, a, b, hd, ha, hb, h.symm, by omega⟩
    · simp at h
  · simp at h

/-- Two hex digit pairs at offsets 3 and 5 are what the `sscanf` call assigns. -/
theorem sscanf_two_groups {text : List Nat} {A B : Nat}
    (hA : hex_byte_at text 3 = some A) (hB : hex_byte_at text 5 = some B) :
    7 ≤ text.length ∧ sscanf_02X_02X (text.drop 3) = .assigned2 A B ∧ A < 256 ∧ B < 256 := by
  obtain ⟨c3, c4, t, a1, a0, hd3, e3, e4, rfl, hAlt⟩ := hex_byte_at_some hA
  obtain ⟨c5, c6, t2, b1, b0, hd5, e5, e6, rfl, hBlt⟩ := hex_byte_at_some hB
  have ht : t = c5 :: c6 :: t2 := by
    have : text.drop 5 = (text.drop 3).drop 2 := by simp
    rw [hd3] at this
    simpa [hd5] using this.symm
  subst ht
  refine ⟨?_, ?_, hAlt, hBlt⟩
  · have := congrArg List.length hd5
    simp at this
    omega
  · rw [hd3]
    simp [sscanf_02X_02X, scan_X_two_digits _ e3 e4, scan_X_two_digits _ e5 e6]

theorem raw_value_bound {A B : Nat} (hA : A < 256) (hB : B < 256) :
    (A <<< 8) % U32 = A <<< 8 ∧ ((A <<< 8) ||| B) < 65536 := by
  have h1 : A <<< 8 < 2 ^ 16 := by
    rw [Nat.shiftLeft_eq]; omega
  refine ⟨Nat.mod_eq_of_lt (by unfold U32; omega), ?_⟩
  exact Nat.or_lt_two_pow h1 (by omega)

/-- The `sscanf` call cannot assign both variables from fewer than two hex digits. -/
theorem sscanf_needs_two_digits {s : List Nat} (h : hex_count s < 2) (a b : Nat) :
    sscanf_02X_02X s ≠ .assigned2 a b := by
  unfold sscanf_02X_02X
  cases h1 : scan_X 2 s with
  | input_failure => simp
  | matching_failure => simp
  | converted v rest =>
    have c1 := scan_X_consumes_digit h1
    cases h2 : scan_X 2 rest with
    | input_failure => simp [h2]
    | matching_failure => simp [h2]
    | converted v2 rest2 =>
      have c2 := scan_X_consumes_digit h2
      omega

/-- After one two-digit group with no hex digit behind it the second
conversion fails. -/
theorem sscanf_one_group {c1 c2 : Nat} {t : List Nat} (h1 : isxdigit c1 = true)
    (h2 : isxdigit c2 = true) (ht : hex_count t = 0) (a b : Nat) :
    sscanf_02X_02X (c1 :: c2 :: t) ≠ .assigned2 a b := by
  obtain ⟨v1, e1⟩ := Option.isSome_iff_exists.mp h1
  obtain ⟨v2, e2⟩ := Option.isSome_iff_exists.mp h2
  unfold sscanf_02X_02X
  rw [scan_X_two_digits t e1 e2]
  cases h3 : scan_X 2 t with
  | input_failure => simp [h3]
  | matching_failure => simp [h3]
  | converted v rest =>
    have := scan_X_consumes_digit h3
    omega

theorem parse_fails_of_scan {text : List Nat} (pid : Nat) (r : obd2_response_t)
    (h : text.length < 5 ∨ ∀ a b, sscanf_02X_02X (text.drop 3) ≠ .assigned2 a b) :
    parse_obd2_response text pid r = (-1, { r with pid := pid, valid := false }) := by
  unfold parse_obd2_response
  by_cases hl : text.length < 5
  · simp [hl]
  · have h2 := h.resolve_left hl
    simp only [hl, if_false]

/-! ## Decoding -/

/-- C1: when the characters at offsets 3-4 are hex digits spelling A and those
at offsets 5-6 are hex digits spelling B (so the text has at least 7
characters), `parse_obd2_response` for a PID other than 0x05 returns 0 with
`valid = true`, `pid` the requested PID and, for `raw = (A << 8) | B`:
`raw / 4` and "RPM" for 0x0C, `raw` and "km/h" for 0x0D, `raw * 100 / 255` and
"%" for 0x04 and 0x2F, `raw` and "raw" for any other PID. -/
theorem parse_obd2_response_scaling (text : List Nat) (pid : Nat) (r : obd2_response_t)
    (A B : Nat) (hA : hex_byte_at text 3 = some A) (hB : hex_byte_at text 5 = some B)
    (hpid : pid ≠ 0x05) :
    7 ≤ text.length ∧
    parse_obd2_response text pid r =
      (0, { pid := pid
            value :=
              if pid = 0x0C then ((A <<< 8) ||| B) / 4
              else if pid = 0x0D then (A <<< 8) ||| B
              else if pid = 0x04 ∨ pid = 0x2F then ((A <<< 8) ||| B) * 100 / 255
              else (A <<< 8) ||| B
            valid := true
            unit :=
              if pid = 0x0C then "RPM"
              else if pid = 0x0D then "km/h"
              else if pid = 0x04 ∨ pid = 0x2F then "%"
              else "raw" }) := by
  obtain ⟨hlen, hscan, hAlt, hBlt⟩ := sscanf_two_groups hA hB
  obtain ⟨hsh, hraw⟩ := raw_value_bound hAlt hBlt
  have h100 : ((A <<< 8) ||| B) * 100 % U32 = ((A <<< 8) ||| B) * 100 :=
    Nat.mod_eq_of_lt (by unfold U32; omega)
  refine ⟨hlen, ?_⟩
  have hnot : ¬ text.length < 5 := by omega
  simp only [parse_obd2_response, hnot, if_false, hscan, hsh, OBD2_PID_ENGINE_RPM,
    OBD2_PID_VEHICLE_SPEED, OBD2_PID_COOLANT_TEMP, OBD2_PID_ENGINE_LOAD, OBD2_PID_FUEL_LEVEL]
  by_cases h1 : pid = 12
  · simp [h1]
  by_cases h2 : pid = 13
  · simp [h2]
  by_cases h3 : pid = 4
  · simp [h3, h100]
  by_cases h4 : pid = 47
  · simp [h4, h100]
  simp [h1, h2, h3, h4, hpid]

/-- C1 at A = 0x1A, B = 0xF8, PID 0x0C: the decoded value is 1726 RPM. -/
theorem parse_obd2_response_scaling_witness :
    7 ≤ (ascii "41 1AF8").length ∧
    parse_obd2_response (ascii "41 1AF8") 0x0C stale =
      (0, { pid := 0x0C, value := 1726, valid := true, unit := "RPM" }) :=
  parse_obd2_response_scaling (ascii "41 1AF8") 0x0C stale 0x1A 0xF8 (by decide) (by decide)
    (by decide)

/-- C2: the reply text "410D002A" decoded for PID 0x0D.  The two fields are
read from offset 3, so they are "D0" and "02": the value is 0xD002 = 53250
km/h, not 0x002A = 42.  The spaced reply "41 0D 2A" of an adapter decodes to
0x0D2A = 3370. -/
theorem parse_obd2_response_410D002A :
    parse_obd2_response (ascii "410D002A") 0x0D stale =
      (0, { pid := 0x0D, value := 53250, valid := true, unit := "km/h" }) ∧
    (parse_obd2_response (ascii "410D002A") 0x0D stale).2.value ≠ 42 ∧
    (parse_obd2_response (ascii "41 0D 2A") 0x0D stale).2.value = 3370 := by
  decide

/-- C4, as the claim states it, at the text "41 0000": both groups at offset 3
are 00, and the value stored is 4294967256, which is not the integer -40. -/
theorem coolant_zero_is_not_minus_40 :
    hex_byte_at (ascii "41 0000") 3 = some 0 ∧ hex_byte_at (ascii "41 0000") 5 = some 0 ∧
    (parse_obd2_response (ascii "41 0000") 0x05 stale).2.value = 4294967256 ∧
    ((parse_obd2_response (ascii "41 0000") 0x05 stale).2.value : Int) ≠ -40 := by
  decide

/-- C4, amended: when both hex digit pairs at offset 3 are 00, decoding for PID
0x05 returns 0 with `valid = true`, unit "°C" and the `uint32_t` value
`2^32 - 40 = 4294967256`; the conversion to `int8_t` that
`obd2_get_coolant_temp` applies to it gives -40. -/
theorem parse_obd2_response_coolant_zero (text : List Nat) (r : obd2_response_t)
    (hA : hex_byte_at text 3 = some 0) (hB : hex_byte_at text 5 = some 0) :
    parse_obd2_response text 0x05 r =
      (0, { pid := 0x05, value := 4294967256, valid := true, unit := "°C" }) ∧
    to_int8 4294967256 = -40 := by
  obtain ⟨hlen, hscan, -, -⟩ := sscanf_two_groups hA hB
  have hnot : ¬ text.length < 5 := by omega
  refine ⟨?_, by decide⟩
  simp only [parse_obd2_response, hnot, if_false, hscan]
  decide

/-- C4, amended, at the text "41 0000". -/
theorem parse_obd2_response_coolant_zero_witness :
    parse_obd2_response (ascii "41 0000") 0x05 stale =
      (0, { pid := 0x05, value := 4294967256, valid := true, unit := "°C" }) ∧
    to_int8 4294967256 = -40 :=
  parse_obd2_response_coolant_zero (ascii "41 0000") stale (by decide) (by decide)

/-- C5, as the claim states it, at the texts "410500" and "41 1 2": fewer than
four hex digits follow offset 3 and fewer than two hex digit pairs stand
there, and decoding returns 0 with `valid = true`: the fields read are "50"
and "0" in the first text, "1" and "2" in the second. -/
theorem parse_obd2_response_410500_succeeds :
    hex_count ((ascii "410500").drop 3) = 3 ∧ hex_byte_at (ascii "410500") 5 = none ∧
    parse_obd2_response (ascii "410500") 0x05 stale =
      (0, { pid := 0x05, value := 20440, valid := true, unit := "°C" }) ∧
    hex_count ((ascii "41 1 2").drop 3) = 2 ∧ hex_byte_at (ascii "41 1 2") 3 = none ∧
    parse_obd2_response (ascii "41 1 2") 0x0D stale =
      (0, { pid := 0x0D, value := 258, valid := true, unit := "km/h" }) := by
  decide

/-- C5, amended: decoding fails, returning -1 with `valid = false`, `pid` set
and `value` and `unit` untouched, for every text that has fewer than 5
characters, or in which fewer than two hex digits follow offset 3, or in which
offset 3 holds one pair of hex digits with no hex digit after it. -/
theorem parse_obd2_response_too_few_digits (text : List Nat) (pid : Nat)
    (r : obd2_response_t)
    (h : text.length < 5 ∨ hex_count (text.drop 3) < 2 ∨
      ∃ c1 c2 t, text.drop 3 = c1 :: c2 :: t ∧ isxdigit c1 = true ∧ isxdigit c2 = true ∧
        hex_count t = 0) :
    parse_obd2_response text pid r = (-1, { r with pid := pid, valid := false }) := by
  apply parse_fails_of_scan
  rcases h with h | h | ⟨c1, c2, t, hd, h1, h2, ht⟩
  · exact Or.inl h
  · exact Or.inr (sscanf_needs_two_digits h)
  · right
    rw [hd]
    exact sscanf_one_group h1 h2 ht

/-- C5, amended, at the text "41 00": one group after offset 3. -/
theorem parse_obd2_response_too_few_digits_witness :
    parse_obd2_response (ascii "41 00") 0x05 stale =
      (-1, { pid := 0x05, value := 7, valid := false, unit := "?" }) :=
  parse_obd2_response_too_few_digits (ascii "41 00") 0x05 stale
    (Or.inr (Or.inr ⟨48, 48, [], by decide, by decide, by decide, by decide⟩))

/-! ## Commands and replies -/

theorem c_str_append_nul (l : List Nat) : c_str (l ++ [0]) = c_str l := by
  induction l with
  | nil => rfl
  | cons a l ih =>
    by_cases h : a = 0
    · simp [c_str, h]
    · have ih2 : List.takeWhile (fun b => b != 0) (l ++ [0]) =
          List.takeWhile (fun b => b != 0) l := ih
      simp [c_str, List.takeWhile_cons, h, ih2]

theorem starts_with_iff (needle : List Nat) :
    ∀ hay : List Nat, starts_with needle hay = true ↔ needle <+: hay := by
  induction needle with
  | nil => intro hay; simp [starts_with]
  | cons n ns ih =>
    intro hay
    cases hay with
    | nil => simp [starts_with]
    | cons h hs => simp [starts_with, ih, List.cons_prefix_cons]

/-- `strstr` finds the needle exactly when it occurs as a contiguous run. -/
theorem strstr_isSome_iff (needle : List Nat) :
    ∀ hay : List Nat, (strstr hay needle).isSome = true ↔ needle <:+: hay := by
  intro hay
  induction hay with
  | nil =>
    unfold strstr
    by_cases h : starts_with needle [] = true
    · have := (starts_with_iff needle []).mp h
      simp [h, this.isInfix]
    · have h2 : ¬ needle <+: [] := fun hp => h ((starts_with_iff needle []).mpr hp)
      simp at h2
      simp [h, h2]
  | cons a hs ih =>
    unfold strstr
    by_cases h : starts_with needle (a :: hs) = true
    · have := (starts_with_iff needle (a :: hs)).mp h
      simp [h, this.isInfix]
    · have h2 : ¬ needle <+: a :: hs := fun hp => h ((starts_with_iff needle _).mpr hp)
      simp only [h, if_false, Option.isSome_map', ih, List.infix_cons_iff, h2, false_or,
        Bool.false_eq_true]

set_option maxRecDepth 20000 in
theorem request_command_shape :
    ∀ pid < 256, (request_command pid).length = 7 ∧
      (request_command pid).take 4 = ascii "0100" := by
  decide

/-- C3: the command `obd2_request_pid` builds, for every PID byte, has 7
characters and starts with "0100"; for PID 0x0C it is "01000C\r", not
"010C\r", and that is what is written to the adapter. -/
theorem request_command_is_0100_pid :
    (∀ pid < 256, (request_command pid).length = 7 ∧
      (request_command pid).take 4 = ascii "0100") ∧
    request_command 0x0C = ascii "01000C\r" ∧
    request_command 0x0C ≠ ascii "010C\r" ∧
    (obd2_request_pid ready 0x0C (some stale) ⟨7, 0, none⟩).2.1.log =
      ready.log ++ [.sys_write 3 (ascii "01000C\r"), .sys_select 3 2000] := by
  exact ⟨request_command_shape, by decide, by decide, by decide⟩

/-- C6, as the claim states it, at the received bytes 0, 'O', 'K': they
contain 'O','K', and `obd2_test_connection` returns false. -/
theorem obd2_test_connection_nul_hides_OK :
    ascii "OK" <:+: [0, 79, 75] ∧
    (obd2_test_connection ready ⟨3, 1, some [0, 79, 75]⟩).1 = false := by
  refine ⟨⟨[0], [], by decide⟩, by decide⟩

/-- C6, amended: on an open connection on which the write of "AT\r" succeeds,
`obd2_test_connection` returns true exactly when `select` reports the
descriptor readable, `read` succeeds, and the bytes received (255 at most)
contain 'O','K' before their first zero byte. -/
theorem obd2_test_connection_iff (s : Session) (os : IoOs) (hfd : 0 ≤ s.serial_fd)
    (hw : 0 ≤ os.write_ret) :
    (obd2_test_connection s os).1 = true ↔
      0 < os.select_ret ∧
        ∃ data, os.read_ret = some data ∧ ascii "OK" <:+: c_str (data.take 255) := by
  have h1 : ¬ s.serial_fd < 0 := by omega
  have h2 : ¬ os.write_ret < 0 := by omega
  simp only [obd2_test_connection, read_with_timeout, h1, h2, if_false]
  by_cases hs : os.select_ret ≤ 0
  · have h3 : ¬ 0 < os.select_ret := by omega
    simp [hs, h3]
  · have h3 : 0 < os.select_ret := by omega
    simp only [hs, if_false, h3, true_and]
    cases hr : os.read_ret with
    | none => simp
    | some data =>
      simp only [c_str_append_nul, Option.some.injEq, exists_eq_left']
      by_cases hn : (0 : Int) < ((List.take 255 data).length : Int)
      · simp only [hn, if_true]
        rw [← strstr_isSome_iff]
        by_cases hk : (strstr (c_str (List.take 255 data)) (ascii "OK")).isSome = true
        · simp [hk]
        · simp [hk]
      · have he : List.take 255 data = [] := by
          apply List.eq_nil_of_length_eq_zero
          omega
        have hne : ¬ ascii "OK" <:+: c_str [] := by decide
        simp [he, hne]

/-- C6, amended, at the reply "AT\rOK\r>". -/
theorem obd2_test_connection_iff_witness :
    (obd2_test_connection ready ⟨3, 1, some (ascii "AT\rOK\r>")⟩).1 = true ↔
      (0 : Int) < 1 ∧
        ∃ data, some (ascii "AT\rOK\r>") = some data ∧ ascii "OK" <:+: c_str (data.take 255) :=
  obd2_test_connection_iff ready ⟨3, 1, some (ascii "AT\rOK\r>")⟩ (by decide) (by decide)

/-- C7, as the claim states it, on the session `ready` for PID 0x0C: the
request whose read times out and the request whose read fails return the same
value and leave the same response. -/
theorem obd2_request_pid_timeout_same_as_error :
    (obd2_request_pid ready 0x0C (some stale) ⟨7, 0, none⟩).1 =
      (obd2_request_pid ready 0x0C (some stale) ⟨7, -1, none⟩).1 ∧
    (obd2_request_pid ready 0x0C (some stale) ⟨7, 0, none⟩).2.2 =
      (obd2_request_pid ready 0x0C (some stale) ⟨7, -1, none⟩).2.2 ∧
    (obd2_request_pid ready 0x0C (some stale) ⟨7, 0, none⟩).2.2 =
      (obd2_request_pid ready 0x0C (some stale) ⟨7, 1, none⟩).2.2 := by
  decide

/-- C7, amended: on an open connection, `read_with_timeout` returns 0 when
`select` times out and a negative value when `select` or `read` fails; when
the command write succeeds `obd2_request_pid` returns -1 in both cases, with
`valid = false`, the other fields of the response as they were, and the
descriptor unchanged. -/
theorem obd2_request_pid_no_response (s : Session) (pid : Nat) (r : obd2_response_t)
    (timeout failure : IoOs) (hfd : 0 ≤ s.serial_fd)
    (hwt : 0 ≤ timeout.write_ret) (hwf : 0 ≤ failure.write_ret)
    (ht : timeout.select_ret = 0)
    (hf : failure.select_ret < 0 ∨ (0 < failure.select_ret ∧ failure.read_ret = none)) :
    (read_with_timeout s 255 2000 timeout).1 = 0 ∧
    (read_with_timeout s 255 2000 failure).1 < 0 ∧
    (obd2_request_pid s pid (some r) timeout).1 = -1 ∧
    (obd2_request_pid s pid (some r) failure).1 = -1 ∧
    (obd2_request_pid s pid (some r) timeout).2.2 = some { r with valid := false } ∧
    (obd2_request_pid s pid (some r) failure).2.2 = some { r with valid := false } ∧
    (obd2_request_pid s pid (some r) timeout).2.1.serial_fd = s.serial_fd ∧
    (obd2_request_pid s pid (some r) failure).2.1.serial_fd = s.serial_fd := by
  have h1 : ¬ s.serial_fd < 0 := by omega
  have h2 : ¬ timeout.write_ret < 0 := by omega
  have h3 : ¬ failure.write_ret < 0 := by omega
  rcases hf with hf | ⟨hf, hr⟩
  · have h4 : failure.select_ret ≤ 0 := by omega
    simp [obd2_request_pid, read_with_timeout, h1, h2, h3, ht, h4, hf]
  · have h4 : ¬ failure.select_ret ≤ 0 := by omega
    simp [obd2_request_pid, read_with_timeout, h1, h2, h3, ht, h4, hr]

/-- C7, amended, on the session `ready` for PID 0x0C. -/
theorem obd2_request_pid_no_response_witness :
    (read_with_timeout ready 255 2000 ⟨7, 0, none⟩).1 = 0 ∧
    (read_with_timeout ready 255 2000 ⟨7, 1, none⟩).1 < 0 ∧
    (obd2_request_pid ready 0x0C (some stale) ⟨7, 0, none⟩).1 = -1 ∧
    (obd2_request_pid ready 0x0C (some stale) ⟨7, 1, none⟩).1 = -1 ∧
    (obd2_request_pid ready 0x0C (some stale) ⟨7, 0, none⟩).2.2 =
      some { stale with valid := false } ∧
    (obd2_request_pid ready 0x0C (some stale) ⟨7, 1, none⟩).2.2 =
      some { stale with valid := false } ∧
    (obd2_request_pid ready 0x0C (some stale) ⟨7, 0, none⟩).2.1.serial_fd = ready.serial_fd ∧
    (obd2_request_pid ready 0x0C (some stale) ⟨7, 1, none⟩).2.1.serial_fd = ready.serial_fd :=
  obd2_request_pid_no_response ready 0x0C stale ⟨7, 0, none⟩ ⟨7, 1, none⟩ (by decide)
    (by decide) (by decide) rfl (Or.inr ⟨by decide, rfl⟩)

/-! ## Session lifecycle -/

/-- C8: while the session is closed (`serial_fd < 0`), `obd2_request_pid` for
every PID and each of the five typed accessors return -1, make no call into
the operating system (the session, its log included, is unchanged), and
leave the caller's response or output value as it was. -/
theorem closed_session_rejects_requests (s : Session) (hclosed : s.serial_fd < 0)
    (pid : Nat) (response : Option obd2_response_t) (local_response : obd2_response_t)
    (os : IoOs) (rpm speed level load : Option Nat) (temp : Option Int) :
    obd2_request_pid s pid response os = (-1, s, response) ∧
    obd2_get_rpm s rpm local_response os = (-1, s, rpm) ∧
    obd2_get_speed s speed local_response os = (-1, s, speed) ∧
    obd2_get_coolant_temp s temp local_response os = (-1, s, temp) ∧
    obd2_get_fuel_level s level local_response os = (-1, s, level) ∧
    obd2_get_engine_load s load local_response os = (-1, s, load) := by
  have hreq : ∀ p r, obd2_request_pid s p r os = (-1, s, r) := by
    intro p r
    simp [obd2_request_pid, hclosed]
  refine ⟨hreq pid response, ?_, ?_, ?_, ?_, ?_⟩
  · cases rpm <;> simp [obd2_get_rpm, hreq]
  · cases speed <;> simp [obd2_get_speed, hreq]
  · cases temp <;> simp [obd2_get_coolant_temp, hreq]
  · cases level <;> simp [obd2_get_fuel_level, hreq]
  · cases load <;> simp [obd2_get_engine_load, hreq]

/-- C8 on the initial session, with an adapter that would answer. -/
theorem closed_session_rejects_requests_witness :
    obd2_request_pid Session.initial 0x0C (some stale) ⟨7, 1, some (ascii "41 1AF8")⟩ =
      (-1, Session.initial, some stale) ∧
    obd2_get_rpm Session.initial (some 9) stale ⟨7, 1, some (ascii "41 1AF8")⟩ =
      (-1, Session.initial, some 9) ∧
    obd2_get_speed Session.initial (some 9) stale ⟨7, 1, some (ascii "41 1AF8")⟩ =
      (-1, Session.initial, some 9) ∧
    obd2_get_coolant_temp Session.initial (some 9) stale ⟨7, 1, some (ascii "41 1AF8")⟩ =
      (-1, Session.initial, some 9) ∧
    obd2_get_fuel_level Session.initial (some 9) stale ⟨7, 1, some (ascii "41 1AF8")⟩ =
      (-1, Session.initial, some 9) ∧
    obd2_get_engine_load Session.initial (some 9) stale ⟨7, 1, some (ascii "41 1AF8")⟩ =
      (-1, Session.initial, some 9) :=
  closed_session_rejects_requests Session.initial (by decide) 0x0C (some stale) stale
    ⟨7, 1, some (ascii "41 1AF8")⟩ (some 9) (some 9) (some 9) (some 9) (some 9)

/-- C9: from every state `obd2_close` returns 0 and leaves the session closed;
a second call returns 0 again and changes nothing, the log of operating
system calls included. -/
theorem obd2_close_idempotent (s : Session) :
    (obd2_close s).1 = 0 ∧ (obd2_close s).2.serial_fd < 0 ∧
    obd2_close (obd2_close s).2 = (0, (obd2_close s).2) := by
  by_cases h : 0 ≤ s.serial_fd
  · simp [obd2_close, h]
  · have h2 : s.serial_fd < 0 := by omega
    simp [obd2_close, h, h2]

theorem open_handles_append (l es : List Event) :
    open_handles (l ++ es) = es.foldl track (open_handles l) := by
  simp [open_handles, List.foldl_append]

theorem single_handle_close {s : Session} (h : single_handle s) :
    single_handle (obd2_close s).2 ∧ open_handles (obd2_close s).2.log = [] := by
  unfold single_handle at *
  by_cases hfd : 0 ≤ s.serial_fd
  · simp [obd2_close, hfd, open_handles_append, h, track]
  · simp [obd2_close, hfd, h]

theorem open_value_cases (os : InitOs) :
    (os.open_ret = none ∧ os.open_value = -1) ∨ (os.open_ret ≠ none ∧ 0 ≤ os.open_value) := by
  unfold InitOs.open_value
  cases os.open_ret with
  | none => simp
  | some n => simp

/-- What `obd2_init` does from a state with no descriptor open. -/
theorem obd2_init_from_closed (s : Session) (hfd : s.serial_fd < 0)
    (h : open_handles s.log = []) (port : List Nat) (baudrate : Nat) (os : InitOs) :
    single_handle (obd2_init s port baudrate os).2 ∧
    ((os.open_ret = none ∨ os.tcgetattr_ret = none ∨ os.tcsetattr_ok = false) →
      (obd2_init s port baudrate os).1 = -1 ∧ (obd2_init s port baudrate os).2.serial_fd < 0 ∧
      open_handles (obd2_init s port baudrate os).2.log = []) ∧
    ∃ rest, (obd2_init s port baudrate os).2.log = s.log ++ .sys_open port os.open_value :: rest := by
  have h0 : ¬ 0 ≤ s.serial_fd := by omega
  unfold single_handle
  rcases open_value_cases os with ⟨ho, hv⟩ | ⟨ho, hv⟩
  · simp [obd2_init, h0, hv, ho, open_handles_append, track, h]
  · have hv2 : ¬ os.open_value < 0 := by omega
    cases hg : os.tcgetattr_ret with
    | none =>
      simp [obd2_init, configure_serial, h0, hv, hv2, hg, open_handles_append, track, h]
    | some tty =>
      cases hs : os.tcsetattr_ok with
      | false =>
        simp [obd2_init, configure_serial, h0, hv, hv2, hg, hs, open_handles_append, track, h]
      | true =>
        simp [obd2_init, configure_serial, h0, hv, hv2, hg, hs, open_handles_append, track, h,
          ho]

theorem obd2_init_closes_first (s : Session) (port : List Nat) (baudrate : Nat)
    (os : InitOs) :
    (obd2_close s).2.serial_fd < 0 ∧
    obd2_init s port baudrate os = obd2_init (obd2_close s).2 port baudrate os := by
  by_cases hfd : 0 ≤ s.serial_fd
  · simp [obd2_init, obd2_close, hfd]
  · have h2 : s.serial_fd < 0 := by omega
    simp [obd2_init, obd2_close, hfd, h2]

theorem single_handle_init {s : Session} (h : single_handle s) (port : List Nat)
    (baudrate : Nat) (os : InitOs) : single_handle (obd2_init s port baudrate os).2 := by
  obtain ⟨hc, he⟩ := obd2_init_closes_first s port baudrate os
  rw [he]
  exact (obd2_init_from_closed _ hc (single_handle_close h).2 port baudrate os).1

theorem single_handle_run (calls : List Call) :
    ∀ s : Session, single_handle s → single_handle (run s calls) := by
  induction calls with
  | nil => intro s h; exact h
  | cons c cs ih =>
    intro s h
    have hstep : single_handle (step s c) := by
      cases c with
      | init port baudrate os => exact single_handle_init h port baudrate os
      | close => exact (single_handle_close h).1
    exact ih _ hstep

/-- C10: after every sequence of `obd2_init` and `obd2_close` calls from
program start, whatever `open`, `tcgetattr` and `tcsetattr` return, the
descriptors opened and not yet closed are exactly the one held in `serial_fd`
(none when it is negative), so at most one.  From such a state, an
`obd2_init` called with a descriptor open restores and closes that descriptor,
leaving none open, before it calls `open`; and an `obd2_init` in which `open`,
`tcgetattr` or `tcsetattr` fails returns -1 with `serial_fd` negative and no
descriptor open. -/
theorem lifecycle_single_handle (calls : List Call) :
    single_handle (run Session.initial calls) ∧
    (open_handles (run Session.initial calls).log).length ≤ 1 ∧
    (∀ (port : List Nat) (baudrate : Nat) (os : InitOs),
      0 ≤ (run Session.initial calls).serial_fd →
      open_handles ((run Session.initial calls).log ++
        [.sys_tcsetattr (run Session.initial calls).serial_fd
            (.saved (run Session.initial calls).old_tty),
          .sys_close (run Session.initial calls).serial_fd]) = [] ∧
      ∃ rest, (obd2_init (run Session.initial calls) port baudrate os).2.log =
        (run Session.initial calls).log ++
          [.sys_tcsetattr (run Session.initial calls).serial_fd
              (.saved (run Session.initial calls).old_tty),
            .sys_close (run Session.initial calls).serial_fd,
            .sys_open port os.open_value] ++ rest) ∧
    (∀ (port : List Nat) (baudrate : Nat) (os : InitOs),
      (os.open_ret = none ∨ os.tcgetattr_ret = none ∨ os.tcsetattr_ok = false) →
      (obd2_init (run Session.initial calls) port baudrate os).1 = -1 ∧
      (obd2_init (run Session.initial calls) port baudrate os).2.serial_fd < 0 ∧
      open_handles (obd2_init (run Session.initial calls) port baudrate os).2.log = []) := by
  have hinv : single_handle (run Session.initial calls) :=
    single_handle_run calls Session.initial (by unfold single_handle; decide)
  refine ⟨hinv, ?_, ?_, ?_⟩
  · rw [hinv]
    split <;> simp
  · intro port baudrate os hfd
    obtain ⟨hc, he⟩ := obd2_init_closes_first (run Session.initial calls) port baudrate os
    have hcl := (single_handle_close hinv).2
    obtain ⟨rest, hrest⟩ :=
      (obd2_init_from_closed _ hc hcl port baudrate os).2.2
    refine ⟨?_, rest, ?_⟩
    · simpa [obd2_close, hfd] using hcl
    · rw [he, hrest]
      simp [obd2_close, hfd]
  · intro port baudrate os hfail
    obtain ⟨hc, he⟩ := obd2_init_closes_first (run Session.initial calls) port baudrate os
    rw [he]
    exact (obd2_init_from_closed _ hc (single_handle_close hinv).2 port baudrate os).2.1 hfail

end Obd2
